import Mathlib

/-!
Verification of the specialCliTools repository: a shallow embedding in Lean 4
of the three source modules (scripts/utils/colors.py, scripts/utils/git_helpers.py,
scripts/tools/docker_manager.py) together with theorems settling the spec claims.

Conventions of the embedding:
* Python machine integers are modelled as `ℤ` (they are unbounded in Python).
* Python floats are modelled as `ℚ` with exact arithmetic; the f-string
  fixed-point rendering `:.Nf` is modelled by `decFmt` (round to nearest at the
  last digit, half away from floor).
* `dict.get(key, default)` on possibly-missing keys is modelled by `Option`
  fields with `Option.getD`; plain `dict[key]` indexing is modelled by `Option`
  fields whose `none` case produces a `KeyError` result (`Except.error`).
* Exceptions raised by library calls are modelled by `Except` values, and
  `try/except SomeError` by matching on the error kind.
-/

/-! ## scripts/utils/colors.py -/

namespace Colors

/-- ANSI code `\x1b[48;2;14;16;25m` (class attribute `BACKGROUND`). -/
def BACKGROUND : String := "\x1b[48;2;14;16;25m"

/-- ANSI code for the foreground color (class attribute `FOREGROUND`). -/
def FOREGROUND : String := "\x1b[38;2;255;250;244m"

/-- ANSI code for red (class attribute `RED`). -/
def RED : String := "\x1b[38;2;255;0;15m"

/-- ANSI code for green (class attribute `GREEN`). -/
def GREEN : String := "\x1b[38;2;140;225;11m"

/-- ANSI code for blue (class attribute `BLUE`). -/
def BLUE : String := "\x1b[38;2;0;141;248m"

/-- ANSI code for yellow (class attribute `YELLOW`). -/
def YELLOW : String := "\x1b[38;2;255;185;0m"

/-- ANSI code for cyan (class attribute `CYAN`). -/
def CYAN : String := "\x1b[38;2;0;216;235m"

/-- ANSI code for magenta (class attribute `MAGENTA`). -/
def MAGENTA : String := "\x1b[38;2;109;67;166m"

/-- ANSI reset code (class attribute `RESET`). -/
def RESET : String := "\x1b[0m"

/-- `Colors.style`: `return f"{color}{text}{cls.RESET}"`. -/
def style (text : String) (color : String) : String :=
  color ++ text ++ RESET

/-- `Colors.error`: style with `RED`. -/
def error (text : String) : String := style text RED

/-- `Colors.success`: style with `GREEN`. -/
def success (text : String) : String := style text GREEN

/-- `Colors.info`: style with `BLUE`. -/
def info (text : String) : String := style text BLUE

/-- `Colors.warning`: style with `YELLOW`. -/
def warning (text : String) : String := style text YELLOW

end Colors

/-! ## scripts/utils/git_helpers.py

`subprocess.check_output` either returns the tool's output (split into lines)
or raises: `CalledProcessError` when the tool runs and exits non-zero (e.g.
the directory is not a repository), `FileNotFoundError` when the executable
does not exist (tool not installed). The environment supplies the outcome of
each of the three invocations. -/

/-- Exception kinds that `subprocess.check_output` can raise here. -/
inductive GitExc where
  | calledProcessError
  | fileNotFoundError
  deriving DecidableEq, Repr

/-- Outcomes of the three `subprocess.check_output` invocations made by
`get_git_status`, in source order: modified, untracked, staged. -/
structure GitEnv where
  modifiedRes : Except GitExc (List String)
  untrackedRes : Except GitExc (List String)
  stagedRes : Except GitExc (List String)

/-- The body of the `try:` block of `get_git_status`: the three invocations run
in order and the first exception aborts the block. -/
def gitTryBody (env : GitEnv) :
    Except GitExc (List String × List String × List String) := do
  let modified ← env.modifiedRes
  let untracked ← env.untrackedRes
  let staged ← env.stagedRes
  return (modified, untracked, staged)

/-- `get_git_status`: runs the three invocations; `except CalledProcessError`
returns `([], [], [])`; any other exception propagates to the caller. -/
def get_git_status (env : GitEnv) :
    Except GitExc (List String × List String × List String) :=
  match gitTryBody env with
  | .ok r => .ok r
  | .error .calledProcessError => .ok ([], [], [])
  | .error e => .error e

/-- Python truthiness of a list: non-empty. -/
def pyTruthy (l : List String) : Bool := !l.isEmpty

/-- Python `a or b` on lists: `a` if truthy, else `b`. -/
def pyOr (a b : List String) : List String := if a.isEmpty then b else a

/-- `check_git_changes`: `return bool(modified or untracked or staged)`.
Propagates any exception escaping `get_git_status`. -/
def check_git_changes (env : GitEnv) : Except GitExc Bool :=
  (get_git_status env).map fun (modified, untracked, staged) =>
    pyTruthy (pyOr (pyOr modified untracked) staged)

/-- One printed line per file: two spaces, a colored one-letter marker, a
space, the file name. -/
def gitFileLine (marker : String) (color : String) (file : String) : String :=
  "  " ++ color ++ marker ++ Colors.RESET ++ " " ++ file

/-- `print_git_status`: returns the lines printed and the boolean result.
Propagates any exception escaping `get_git_status`. -/
def print_git_status (env : GitEnv) : Except GitExc (List String × Bool) :=
  (get_git_status env).map fun (modified, untracked, staged) =>
    if !(pyTruthy modified || pyTruthy untracked || pyTruthy staged) then
      ([Colors.success "No local modifications detected"], false)
    else
      ([Colors.warning "\nLocal modifications detected:"]
        ++ (if pyTruthy modified then
              Colors.info "\nModified files:"
                :: modified.map (gitFileLine "M" Colors.RED)
            else [])
        ++ (if pyTruthy untracked then
              Colors.info "\nUntracked files:"
                :: untracked.map (gitFileLine "?" Colors.RED)
            else [])
        ++ (if pyTruthy staged then
              Colors.info "\nStaged files:"
                :: staged.map (gitFileLine "A" Colors.GREEN)
            else []),
       true)

/-! ## scripts/tools/docker_manager.py — fixed-point rendering

`decFmt digits q` models the Python f-string conversion `f"{q:.{digits}f}"`
numerically: the value is scaled by `10 ^ digits`, rounded to the nearest
integer, and printed with the decimal point re-inserted. The rounded integer
`⌊q * 10 ^ digits + 1/2⌋` is computed as
`fdiv (2 * q.num * 10 ^ digits + q.den) (2 * q.den)` so that the definition
reduces by integer arithmetic on the projections of `q`. -/

/-- Fixed-point rendering of a rational with `digits` fractional digits,
modelling Python `f"{value:.{digits}f}"`. -/
def decFmt (digits : ℕ) (q : ℚ) : String :=
  let p : ℕ := 10 ^ digits
  let n : ℤ := Int.fdiv (2 * q.num * (p : ℤ) + (q.den : ℤ)) (2 * (q.den : ℤ))
  let a : ℕ := n.natAbs
  let fracStr : String := Nat.repr (a % p)
  let fracPad : String :=
    String.mk (List.replicate (digits - fracStr.length) '0') ++ fracStr
  (if n < 0 then "-" else "") ++ Nat.repr (a / p)
    ++ (if digits = 0 then "" else "." ++ fracPad)

/-! ## scripts/tools/docker_manager.py — show_stats

The raw stats dictionary returned by `container.stats(stream=False)` is read
exclusively through `dict.get` with defaults, modelled by `Option` fields.
Missing dictionaries default to empty dictionaries (all fields `none`). -/

/-- The `cpu_usage` sub-dictionary: `total_usage` and `percpu_usage` keys. -/
structure CpuUsage where
  total_usage : Option ℤ
  percpu_usage : Option (List ℤ)

/-- The empty `cpu_usage` dictionary (default of `.get("cpu_usage", {})`). -/
def CpuUsage.empty : CpuUsage := ⟨none, none⟩

/-- The `cpu_stats` / `precpu_stats` sub-dictionary. -/
structure CpuStats where
  cpu_usage : Option CpuUsage
  system_cpu_usage : Option ℤ

/-- The empty `cpu_stats` dictionary (default of `.get("cpu_stats", {})`). -/
def CpuStats.empty : CpuStats := ⟨none, none⟩

/-- The `memory_stats` sub-dictionary: `usage` and `limit` keys. -/
structure MemoryStats where
  usage : Option ℤ
  limit : Option ℤ

/-- The empty `memory_stats` dictionary. -/
def MemoryStats.empty : MemoryStats := ⟨none, none⟩

/-- The toplevel stats dictionary, restricted to the keys `show_stats`
reads for the CPU and memory rows. -/
structure StatsDict where
  cpu_stats : Option CpuStats
  precpu_stats : Option CpuStats
  memory_stats : Option MemoryStats

/-- `system_delta` as computed in `show_stats`:
`cpu_stats.get("system_cpu_usage", 0) - precpu_stats.get("system_cpu_usage", 0)`. -/
def system_delta (stats : StatsDict) : ℤ :=
  (stats.cpu_stats.getD CpuStats.empty).system_cpu_usage.getD 0
    - (stats.precpu_stats.getD CpuStats.empty).system_cpu_usage.getD 0

/-- `cpu_delta` as computed in `show_stats`:
`cpu_usage.get("total_usage", 0) - precpu_usage.get("total_usage", 0)`. -/
def cpu_delta (stats : StatsDict) : ℤ :=
  ((stats.cpu_stats.getD CpuStats.empty).cpu_usage.getD CpuUsage.empty).total_usage.getD 0
    - ((stats.precpu_stats.getD CpuStats.empty).cpu_usage.getD CpuUsage.empty).total_usage.getD 0

/-- `num_cpus`:
`len(cpu_usage.get("percpu_usage", [])) if cpu_usage.get("percpu_usage") else 1`
(`None` and the empty list are both falsy). -/
def num_cpus (stats : StatsDict) : ℕ :=
  match ((stats.cpu_stats.getD CpuStats.empty).cpu_usage.getD CpuUsage.empty).percpu_usage with
  | some l => if l.isEmpty then 1 else l.length
  | none => 1

/-- The sentinel row value printed by the `except` branch of the CPU block. -/
def cpuNA : String := "N/A (Error calculating CPU usage)"

/-- The sentinel row value printed by the `except` branch of the memory block. -/
def memoryNA : String := "N/A (Error calculating memory usage)"

/-- The value of the "CPU Usage" row built by `show_stats`: `cpu_percent` is
`(cpu_delta / system_delta) * 100.0 * num_cpus` when `system_delta > 0` and
`0.0` otherwise, rendered as `f"{cpu_percent:.2f}%"`. With every key read
through `.get` defaults, no exception can occur in this block, so the
`except` branch producing `cpuNA` is not reachable from dictionary data. -/
def cpuUsageRow (stats : StatsDict) : String :=
  let cpu_percent : ℚ :=
    if 0 < system_delta stats then
      ((cpu_delta stats : ℚ) / (system_delta stats : ℚ)) * 100 * (num_cpus stats : ℚ)
    else 0
  decFmt 2 cpu_percent ++ "%"

/-- `memory_stats.get("usage", 0)`. -/
def memUsageRaw (stats : StatsDict) : ℤ :=
  (stats.memory_stats.getD MemoryStats.empty).usage.getD 0

/-- `memory_stats.get("limit", 0)`. -/
def memLimitRaw (stats : StatsDict) : ℤ :=
  (stats.memory_stats.getD MemoryStats.empty).limit.getD 0

/-- The value of the "Memory Usage" row built by `show_stats`:
usage and limit are converted to MB (division by `1024 * 1024`),
`memory_percent` is `usage / limit * 100` when `limit > 0` and `0.0`
otherwise, rendered as `f"{usage:.1f}MB / {limit:.1f}MB ({percent:.1f}%)"`. -/
def memoryUsageRow (stats : StatsDict) : String :=
  let memory_usage : ℚ := (memUsageRaw stats : ℚ) / (1024 * 1024)
  let memory_limit : ℚ := (memLimitRaw stats : ℚ) / (1024 * 1024)
  let memory_percent : ℚ :=
    if 0 < memory_limit then memory_usage / memory_limit * 100 else 0
  decFmt 1 memory_usage ++ "MB / " ++ decFmt 1 memory_limit ++ "MB ("
    ++ decFmt 1 memory_percent ++ "%)"

/-! ## scripts/tools/docker_manager.py — _format_bytes -/

/-- The loop of `_format_bytes` over the remaining unit suffixes: return
`f"{value:.2f}{unit}"` as soon as `value < 1024`, otherwise divide by 1024
and move to the next unit; after `GB` the value is rendered with `TB`
unconditionally. -/
def formatBytesLoop : List String → ℚ → String
  | [], bytes_value => decFmt 2 bytes_value ++ "TB"
  | unit :: units, bytes_value =>
    if bytes_value < 1024 then decFmt 2 bytes_value ++ unit
    else formatBytesLoop units (bytes_value / 1024)

/-- `DockerContainerManager._format_bytes`. -/
def format_bytes (bytes_value : ℚ) : String :=
  formatBytesLoop ["B", "KB", "MB", "GB"] bytes_value

/-- The unit suffix reached after `k` division steps of `_format_bytes`. -/
def unitName : ℕ → String
  | 0 => "B"
  | 1 => "KB"
  | 2 => "MB"
  | 3 => "GB"
  | _ => "TB"

/-! ## scripts/tools/docker_manager.py — show_container_info, Created row

`show_container_info` renders the `Created` attribute with
`datetime.fromisoformat(created.replace("Z", "+00:00"))` for strings and
`datetime.fromtimestamp(created)` for numbers, then
`strftime("%Y-%m-%d %H:%M:%S")`. The two library functions are modelled
exactly: `fromtimestamp` converts the epoch to civil date-time in the local
timezone (an explicit offset `tzOffset` in seconds from UTC), while an
aware datetime parsed from an ISO string keeps the wall-clock fields written
in the string and `strftime` prints those fields unchanged. -/

/-- Civil calendar date from a count of days since 1970-01-01 (proleptic
Gregorian), as computed by Python's `datetime`: returns (year, month, day). -/
def civilFromDays (z : ℤ) : ℤ × ℕ × ℕ :=
  let z2 : ℤ := z + 719468
  let era : ℤ := z2.fdiv 146097
  let doe : ℕ := (z2 - era * 146097).toNat
  let yoe : ℕ := (doe - doe / 1460 + doe / 36524 - doe / 146096) / 365
  let y : ℤ := (yoe : ℤ) + era * 400
  let doy : ℕ := doe - (365 * yoe + yoe / 4 - yoe / 100)
  let mp : ℕ := (5 * doy + 2) / 153
  let d : ℕ := doy - (153 * mp + 2) / 5 + 1
  let m : ℕ := if mp < 10 then mp + 3 else mp - 9
  (if m ≤ 2 then y + 1 else y, m, d)

/-- Date-time fields (year, month, day, hour, minute, second). -/
structure DateTimeFields where
  year : ℤ
  month : ℕ
  day : ℕ
  hour : ℕ
  minute : ℕ
  second : ℕ
  deriving DecidableEq

/-- Split an epoch-seconds value into civil date-time fields (UTC). -/
def epochToFields (t : ℤ) : DateTimeFields :=
  let days : ℤ := t.fdiv 86400
  let sod : ℕ := (t - days * 86400).toNat
  let ymd := civilFromDays days
  ⟨ymd.1, ymd.2.1, ymd.2.2, sod / 3600, sod % 3600 / 60, sod % 60⟩

/-- Zero-pad a number below 100 to two digits (`%m`, `%d`, `%H`, `%M`, `%S`). -/
def pad2 (n : ℕ) : String :=
  if n < 10 then "0" ++ Nat.repr n else Nat.repr n

/-- `strftime("%Y-%m-%d %H:%M:%S")` on a datetime's fields. -/
def strftimeYmdHms (f : DateTimeFields) : String :=
  toString f.year ++ "-" ++ pad2 f.month ++ "-" ++ pad2 f.day ++ " "
    ++ pad2 f.hour ++ ":" ++ pad2 f.minute ++ ":" ++ pad2 f.second

/-- The `Created` attribute value: either a legacy numeric epoch, or an
ISO-8601 string carrying wall-clock fields and a UTC offset (in seconds);
`"Z"` has already been replaced by `"+00:00"`, i.e. offset 0. -/
inductive CreatedVal where
  | epochInt (n : ℤ)
  | isoString (fields : DateTimeFields) (offsetSeconds : ℤ)

/-- The rendered "Created" row of `show_container_info` for a present,
well-formed `Created` attribute. `tzOffset` is the local timezone offset in
seconds from UTC used by `datetime.fromtimestamp`; an aware datetime from
`fromisoformat` keeps the string's wall-clock fields under `strftime`. -/
def renderCreatedRow (c : CreatedVal) (tzOffset : ℤ) : String :=
  match c with
  | .epochInt n => strftimeYmdHms (epochToFields (n + tzOffset))
  | .isoString fields _ => strftimeYmdHms fields

/-- The ISO-8601 UTC string denoting the same instant as epoch `e`
(the `"...Z"` form, parsed): its wall-clock fields are the UTC fields of
`e` and its offset is 0. -/
def isoUtcEquiv (e : ℤ) : CreatedVal := .isoString (epochToFields e) 0

/-! ## scripts/tools/docker_manager.py — show_container_info, IP and ports -/

/-- One entry of the `Networks` dictionary: only its `IPAddress` key is read
(with default `"N/A"`). -/
structure NetworkEntry where
  ipAddr : Option String

/-- The `NetworkSettings` dictionary: `IPAddress` (read with default `""`)
and `Networks` (read with `.get`, so `none` models a missing key; the list
keeps the dictionary's iteration order). -/
structure NetSettings where
  ipAddr : Option String
  networks : Option (List (String × NetworkEntry))

/-- The empty `NetworkSettings` dictionary (default of
`info.get("NetworkSettings", {})`). -/
def NetSettings.empty : NetSettings := ⟨none, none⟩

/-- The `HostConfig` dictionary: `PortBindings` is read by plain indexing,
so `none` models a missing key (a `KeyError`). A present value is a list of
(container port, host-port list) pairs; a JSON `null` and an empty mapping
are both falsy and behave identically downstream, so both are `some []`. -/
structure HostConfig where
  portBindings : Option (List (String × List String))

/-- The container attributes `show_container_info` reads for the IP-address
row and the port table. `hostConfig` is read by plain indexing
(`info["HostConfig"]`), so `none` models a missing key. -/
structure ContainerAttrs where
  netSettings : Option NetSettings
  hostConfig : Option HostConfig

/-- The value of the "IP Address" row: `network_settings.get("IPAddress", "")`;
if that is falsy and `network_settings.get("Networks")` is truthy, the
`IPAddress` of the first network interface (default `"N/A"`); finally
`ip_address or "N/A"`. -/
def ipAddressRow (attrs : ContainerAttrs) : String :=
  let network_settings := attrs.netSettings.getD NetSettings.empty
  let ip_address := network_settings.ipAddr.getD ""
  let ip_address2 :=
    match network_settings.networks with
    | some ((_, first_network) :: _) =>
      if ip_address = "" then first_network.ipAddr.getD "N/A" else ip_address
    | _ => ip_address
  if ip_address2 = "" then "N/A" else ip_address2

/-- The rows of the port table: one row per binding whose host-port list is
truthy, pairing the container port with `bindings[0]["HostPort"]`. -/
def portTableRows (port_bindings : List (String × List String)) :
    List (String × String) :=
  port_bindings.filterMap fun pb =>
    match pb.2 with
    | h :: _ => some (pb.1, h)
    | [] => none

/-- The network part of `show_container_info`: the IP-address row is added to
the main table (and the table printed) first; then
`info["HostConfig"]["PortBindings"]` is indexed — a missing key raises
`KeyError`, aborting the rest of the detail display; a falsy value skips the
port table (`none`); otherwise the port table rows are produced. -/
def showContainerInfoNet (attrs : ContainerAttrs) :
    String × Except String (Option (List (String × String))) :=
  (ipAddressRow attrs,
    match attrs.hostConfig with
    | none => .error "KeyError"
    | some hc =>
      match hc.portBindings with
      | none => .error "KeyError"
      | some port_bindings =>
        .ok (if port_bindings.isEmpty then none
             else some (portTableRows port_bindings)))

/-! ## scripts/tools/docker_manager.py — main, container selection

One pass of the container-selection prompt of `main`, for a non-empty list
of `n` containers. The raw input line is classified the way the source
handles it: a line whose lowercase form is `"q"` quits; otherwise
`int(choice)` either parses the line as an integer or raises `ValueError`
(non-integer text, including the empty string). -/

/-- Classification of one input line at the container-selection prompt. -/
inductive SelInput where
  | quitSentinel
  | intLine (k : ℤ)
  | valueError

/-- Outcome of one pass of the selection prompt. -/
inductive SelOutcome where
  | exitLoop
  | enterActions (idx : ℕ)
  | invalidRetry
  deriving DecidableEq

/-- One pass of the selection prompt of `main`: on `int` input `k`,
`container_index = k - 1` is accepted iff `0 <= container_index <
len(containers)`; out-of-range and `ValueError` inputs print an error and
re-prompt. -/
def selectContainerStep (inp : SelInput) (n : ℕ) : SelOutcome :=
  match inp with
  | .quitSentinel => .exitLoop
  | .intLine k =>
    let container_index : ℤ := k - 1
    if 0 ≤ container_index ∧ container_index < (n : ℤ) then
      .enterActions container_index.toNat
    else .invalidRetry
  | .valueError => .invalidRetry

/-! ## Concrete inputs used by witnesses and counterexamples -/

/-- A stats dictionary whose current and previous `system_cpu_usage` agree,
so the system CPU delta is 0 (container CPU counters 50 → 100). -/
def statsZeroDelta : StatsDict :=
  ⟨some ⟨some ⟨some 100, none⟩, some 500⟩,
   some ⟨some ⟨some 50, none⟩, some 500⟩,
   none⟩

/-- A stats dictionary with memory usage 52428800 bytes (50 MB) and an
explicit memory limit of 0. -/
def statsZeroLimit : StatsDict :=
  ⟨none, none, some ⟨some 52428800, some 0⟩⟩

/-- Container attributes with no `NetworkSettings` and no `HostConfig` key. -/
def attrsNoNet : ContainerAttrs := ⟨none, none⟩

/-- A `HostConfig` with one port binding, 80/tcp → 8080. -/
def hostConfigW : HostConfig := ⟨some [("80/tcp", ["8080"])]⟩

/-- Container attributes with no `NetworkSettings` but a present
`HostConfig.PortBindings`. -/
def attrsW : ContainerAttrs := ⟨none, some hostConfigW⟩

/-! ## Claims -/

/-- Appending strings is associative (on the underlying character lists). -/
theorem strAppend_assoc (a b c : String) : a ++ b ++ c = a ++ (b ++ c) := by
  cases a; cases b; cases c
  show String.append (String.append _ _) _ = String.append _ (String.append _ _)
  simp [String.append, List.append_assoc]

/-- A quotient by 1024 ^ k is at least 1024 iff the dividend is at least
1024 ^ (k + 1). -/
theorem le_div_pow_1024 (b : ℚ) (k : ℕ) :
    1024 ≤ b / 1024 ^ k ↔ 1024 ^ (k + 1) ≤ b := by
  rw [le_div_iff₀ (pow_pos (by norm_num : (0:ℚ) < 1024) k), pow_succ,
    mul_comm ((1024:ℚ) ^ k) 1024]

/-- A quotient by 1024 ^ k is below 1024 iff the dividend is below
1024 ^ (k + 1). -/
theorem div_pow_lt_1024 (b : ℚ) (k : ℕ) :
    b / 1024 ^ k < 1024 ↔ b < 1024 ^ (k + 1) := by
  rw [div_lt_iff₀ (pow_pos (by norm_num : (0:ℚ) < 1024) k), pow_succ,
    mul_comm ((1024:ℚ) ^ k) 1024, mul_comm (1024:ℚ) ((1024:ℚ) ^ k)]

/-- C9: for every input text and every style tag in the palette
(error/warning/success/info), the styling function only wraps the text with a
start marker and the reset marker; the underlying content appears unaltered
between the markers, and this holds unconditionally (there is no
terminal-dependent branch), in particular also for non-terminal output. -/
theorem c9_style_wraps_content (text : String) :
    Colors.error text = Colors.RED ++ text ++ Colors.RESET ∧
    Colors.warning text = Colors.YELLOW ++ text ++ Colors.RESET ∧
    Colors.success text = Colors.GREEN ++ text ++ Colors.RESET ∧
    Colors.info text = Colors.BLUE ++ text ++ Colors.RESET ∧
    ∀ color : String, Colors.style text color = color ++ text ++ Colors.RESET :=
  ⟨rfl, rfl, rfl, rfl, fun _ => rfl⟩

/-- C7: for every triple of (modified, untracked, staged) lists returned by
`get_git_status`, `check_git_changes` returns true if and only if at least
one of the three lists is non-empty. -/
theorem c7_check_changes_iff (env : GitEnv)
    (modified untracked staged : List String)
    (h : get_git_status env = .ok (modified, untracked, staged)) :
    check_git_changes env = .ok true
      ↔ (modified ≠ [] ∨ untracked ≠ [] ∨ staged ≠ []) := by
  unfold check_git_changes
  rw [h]
  cases modified <;> cases untracked <;> cases staged <;>
    simp [Except.map, pyTruthy, pyOr]

/-- C7 witness: a concrete environment with one modified file. -/
theorem c7_witness :
    get_git_status ⟨.ok ["a"], .ok [], .ok []⟩ = .ok (["a"], [], []) ∧
    (check_git_changes ⟨.ok ["a"], .ok [], .ok []⟩ = .ok true
      ↔ (["a"] ≠ ([] : List String) ∨ ([] : List String) ≠ ([] : List String)
          ∨ ([] : List String) ≠ ([] : List String))) :=
  ⟨rfl, c7_check_changes_iff _ _ _ _ rfl⟩

/-- C10: for every working-tree state (every outcome environment), the boolean
returned by `print_git_status` equals the boolean returned by
`check_git_changes`; both are true exactly when one of the modified,
untracked, or staged lists is non-empty, and both propagate the same
exception otherwise. -/
theorem c10_print_bool_eq_check (env : GitEnv) :
    (print_git_status env).map Prod.snd = check_git_changes env := by
  unfold print_git_status check_git_changes
  cases hg : get_git_status env with
  | error e => rfl
  | ok r =>
    obtain ⟨m, u, s⟩ := r
    cases m <;> cases u <;> cases s <;>
      simp [Except.map, pyTruthy, pyOr]

/-- C6 counterexample: when the version-control tool is not installed the
first invocation raises `FileNotFoundError`, which `except CalledProcessError`
does not catch: `get_git_status` propagates the exception instead of
returning three empty lists. -/
theorem c6_counterexample :
    get_git_status ⟨.error .fileNotFoundError, .ok [], .ok []⟩
        = .error .fileNotFoundError ∧
    get_git_status ⟨.error .fileNotFoundError, .ok [], .ok []⟩
        ≠ .ok ([], [], []) :=
  ⟨rfl, by simp [get_git_status, gitTryBody, Bind.bind, Except.bind]⟩

/-- C6 amended: on invocation failures raising `CalledProcessError` (the tool
runs and exits non-zero, e.g. the directory is not a repository),
`get_git_status` returns three empty lists rather than raising; a missing
executable (`FileNotFoundError`) is not caught and propagates. -/
theorem c6_amended_cpe_empty (env : GitEnv)
    (h : gitTryBody env = .error .calledProcessError) :
    get_git_status env = .ok ([], [], []) := by
  unfold get_git_status
  rw [h]

/-- C6 witness: a concrete environment whose first invocation exits non-zero. -/
theorem c6_witness :
    gitTryBody ⟨.error .calledProcessError, .ok [], .ok []⟩
        = .error .calledProcessError ∧
    get_git_status ⟨.error .calledProcessError, .ok [], .ok []⟩
        = .ok ([], [], []) :=
  ⟨rfl, c6_amended_cpe_empty _ rfl⟩

/-- C5: for a container list of size `n`, an integer selection input `k` is
accepted (entering the per-container action menu at 0-based index `k - 1`)
if and only if `1 ≤ k ≤ n`; any out-of-range integer and any input on which
`int()` raises `ValueError` (non-integer text, the empty string) lead to a
user-visible error and a re-prompt. -/
theorem c5_selection_range (n : ℕ) (k : ℤ) :
    (selectContainerStep (.intLine k) n = .enterActions (k - 1).toNat
        ↔ 1 ≤ k ∧ k ≤ (n : ℤ)) ∧
    (¬(1 ≤ k ∧ k ≤ (n : ℤ)) →
        selectContainerStep (.intLine k) n = .invalidRetry) ∧
    selectContainerStep .valueError n = .invalidRetry := by
  refine ⟨?_, ?_, rfl⟩
  · simp only [selectContainerStep]
    by_cases hc : 0 ≤ k - 1 ∧ k - 1 < (n : ℤ)
    · rw [if_pos hc]
      simp only [SelOutcome.enterActions.injEq]
      constructor
      · intro _; omega
      · intro _; trivial
    · rw [if_neg hc]
      constructor
      · intro h; cases h
      · intro h; omega
  · intro hk
    simp only [selectContainerStep]
    have hc : ¬(0 ≤ k - 1 ∧ k - 1 < (n : ℤ)) := by omega
    rw [if_neg hc]

/-- C5 witness: with two containers, input 2 is accepted and inputs 3, 0 and
a `ValueError` input re-prompt. -/
theorem c5_witness :
    selectContainerStep (.intLine 2) 2 = .enterActions ((2 : ℤ) - 1).toNat ∧
    selectContainerStep (.intLine 3) 2 = .invalidRetry ∧
    selectContainerStep (.intLine 0) 2 = .invalidRetry ∧
    selectContainerStep .valueError 2 = .invalidRetry :=
  ⟨(c5_selection_range 2 2).1.mpr (by norm_num),
   (c5_selection_range 2 3).2.1 (by norm_num),
   (c5_selection_range 2 0).2.1 (by norm_num),
   (c5_selection_range 2 0).2.2⟩

/-- C1 counterexample: at a snapshot whose system CPU delta is 0 the CPU row
is the numeric percentage "0.00%", not the module's N/A sentinel (the claim
says an N/A-style sentinel is reported). No division fault occurs — the
guarded branch substitutes 0.0 — but the displayed value is a plain zero
percentage indistinguishable from genuine zero usage. -/
theorem c1_counterexample :
    system_delta statsZeroDelta = 0 ∧
    cpuUsageRow statsZeroDelta = "0.00%" ∧
    cpuUsageRow statsZeroDelta ≠ cpuNA :=
  ⟨by decide, by decide, by decide⟩

/-- C1 amended: for every resource snapshot whose system CPU usage delta is
0, the stats display performs no division and reports the CPU percentage as
the substituted default "0.00%" (not an N/A-style sentinel); in particular
it never raises a division fault. -/
theorem c1_amended_zero_delta (stats : StatsDict)
    (h : system_delta stats = 0) :
    cpuUsageRow stats = "0.00%" := by
  simp only [cpuUsageRow, h]
  norm_num
  decide

/-- C1 witness: the concrete zero-delta snapshot. -/
theorem c1_witness :
    system_delta statsZeroDelta = 0 ∧ cpuUsageRow statsZeroDelta = "0.00%" :=
  ⟨by decide, c1_amended_zero_delta _ (by decide)⟩

/-- C2 counterexample: at a snapshot with memory limit 0 and usage 50 MB the
memory row is "50.0MB / 0.0MB (0.0%)": the usage value is shown, but the
percentage is the numeric "0.0%", not an unavailability sentinel (the claim
says the percentage is reported as unavailable). -/
theorem c2_counterexample :
    memLimitRaw statsZeroLimit = 0 ∧
    memoryUsageRow statsZeroLimit = "50.0MB / 0.0MB (0.0%)" ∧
    memoryUsageRow statsZeroLimit ≠ memoryNA := by
  refine ⟨by decide, ?_, ?_⟩
  · simp only [memoryUsageRow, memUsageRaw, memLimitRaw, statsZeroLimit,
      Option.getD_some]
    norm_num
    decide
  · simp only [memoryUsageRow, memUsageRaw, memLimitRaw, statsZeroLimit,
      Option.getD_some]
    norm_num
    decide

/-- C2 amended: for every resource snapshot whose memory limit is 0, the
memory row still shows the memory usage value (converted to MB and rendered
with one decimal), while the limit and the percentage are rendered as the
substituted defaults "0.0MB" and "0.0%" (not an unavailability sentinel);
no division fault occurs. -/
theorem c2_amended_zero_limit (stats : StatsDict)
    (h : memLimitRaw stats = 0) :
    memoryUsageRow stats
      = decFmt 1 ((memUsageRaw stats : ℚ) / (1024 * 1024))
          ++ "MB / 0.0MB (0.0%)" := by
  simp only [memoryUsageRow, h]
  norm_num
  rw [show decFmt 1 0 = "0.0" from by decide]
  rw [strAppend_assoc, strAppend_assoc, strAppend_assoc, strAppend_assoc]
  congr 1

/-- C2 witness: the concrete zero-limit snapshot with 50 MB of usage. -/
theorem c2_witness :
    memLimitRaw statsZeroLimit = 0 ∧
    memoryUsageRow statsZeroLimit
      = decFmt 1 ((memUsageRaw statsZeroLimit : ℚ) / (1024 * 1024))
          ++ "MB / 0.0MB (0.0%)" :=
  ⟨by decide, c2_amended_zero_limit _ (by decide)⟩

/-- C3: for every non-negative byte count, `_format_bytes` renders the count
divided by 1024 once per unit step, to two decimal places followed by the
unit suffix, and the chosen unit is the smallest in B, KB, MB, GB, TB whose
displayed magnitude is below 1024 — except that TB is used exactly for the
values of at least 1024 GB (1024 ^ 4 bytes), regardless of magnitude. -/
theorem c3_format_bytes_unit (b : ℚ) (hb : 0 ≤ b) :
    ∃ k : ℕ, k ≤ 4 ∧
      format_bytes b = decFmt 2 (b / 1024 ^ k) ++ unitName k ∧
      (k < 4 → b / 1024 ^ k < 1024) ∧
      (∀ j : ℕ, j < k → 1024 ≤ b / 1024 ^ j) ∧
      (k = 4 ↔ 1024 ^ 4 ≤ b) := by
  have e0 : b / 1024 ^ 0 = b := by norm_num
  have e1 : b / 1024 ^ 1 = b / 1024 := by norm_num
  have e2 : b / 1024 ^ 2 = b / 1024 / 1024 := by
    rw [div_div]; norm_num
  have e3 : b / 1024 ^ 3 = b / 1024 / 1024 / 1024 := by
    rw [div_div, div_div]; norm_num
  have e4 : b / 1024 ^ 4 = b / 1024 / 1024 / 1024 / 1024 := by
    rw [div_div, div_div, div_div]; norm_num
  by_cases h0 : b < 1024
  · refine ⟨0, by norm_num, ?_, ?_, ?_, ?_⟩
    · simp only [format_bytes, formatBytesLoop, if_pos h0, e0, unitName]
    · intro _; rw [e0]; exact h0
    · intro j hj; exact absurd hj (Nat.not_lt_zero j)
    · constructor
      · intro h; exact absurd h (by norm_num)
      · intro hge
        exfalso
        have : (1024:ℚ) ^ 4 ≤ 1024 ^ 1 :=
          le_trans hge (by rw [pow_one]; exact le_of_lt h0)
        norm_num at this
  · by_cases h1 : b / 1024 < 1024
    · refine ⟨1, by norm_num, ?_, ?_, ?_, ?_⟩
      · simp only [format_bytes, formatBytesLoop, if_neg h0, if_pos h1, e1,
          unitName]
      · intro _; rw [e1]; exact h1
      · intro j hj
        interval_cases j
        rw [e0]; exact not_lt.mp h0
      · constructor
        · intro h; exact absurd h (by norm_num)
        · intro hge
          exfalso
          have hlt : b < 1024 ^ 2 := (div_pow_lt_1024 b 1).mp (e1 ▸ h1)
          have : (1024:ℚ) ^ 4 ≤ 1024 ^ 2 := le_trans hge (le_of_lt hlt)
          norm_num at this
    · by_cases h2 : b / 1024 / 1024 < 1024
      · refine ⟨2, by norm_num, ?_, ?_, ?_, ?_⟩
        · simp only [format_bytes, formatBytesLoop, if_neg h0, if_neg h1,
            if_pos h2, e2, unitName]
        · intro _; rw [e2]; exact h2
        · intro j hj
          interval_cases j
          · rw [e0]; exact not_lt.mp h0
          · rw [e1]; exact not_lt.mp h1
        · constructor
          · intro h; exact absurd h (by norm_num)
          · intro hge
            exfalso
            have hlt : b < 1024 ^ 3 := (div_pow_lt_1024 b 2).mp (e2 ▸ h2)
            have : (1024:ℚ) ^ 4 ≤ 1024 ^ 3 := le_trans hge (le_of_lt hlt)
            norm_num at this
      · by_cases h3 : b / 1024 / 1024 / 1024 < 1024
        · refine ⟨3, by norm_num, ?_, ?_, ?_, ?_⟩
          · simp only [format_bytes, formatBytesLoop, if_neg h0, if_neg h1,
              if_neg h2, if_pos h3, e3, unitName]
          · intro _; rw [e3]; exact h3
          · intro j hj
            interval_cases j
            · rw [e0]; exact not_lt.mp h0
            · rw [e1]; exact not_lt.mp h1
            · rw [e2]; exact not_lt.mp h2
          · constructor
            · intro h; exact absurd h (by norm_num)
            · intro hge
              exfalso
              have hlt : b < 1024 ^ 4 := (div_pow_lt_1024 b 3).mp (e3 ▸ h3)
              exact absurd hge (not_le.mpr hlt)
        · refine ⟨4, le_refl 4, ?_, ?_, ?_, ?_⟩
          · simp only [format_bytes, formatBytesLoop, if_neg h0, if_neg h1,
              if_neg h2, if_neg h3, e4, unitName]
          · intro h; exact absurd h (by norm_num)
          · intro j hj
            interval_cases j
            · rw [e0]; exact not_lt.mp h0
            · rw [e1]; exact not_lt.mp h1
            · rw [e2]; exact not_lt.mp h2
            · rw [e3]; exact not_lt.mp h3
          · refine iff_of_true rfl ?_
            exact (le_div_pow_1024 b 3).mp (e3 ▸ not_lt.mp h3)

/-- C3 witness: the byte count 2048. -/
theorem c3_witness :
    (0:ℚ) ≤ 2048 ∧
    ∃ k : ℕ, k ≤ 4 ∧
      format_bytes 2048 = decFmt 2 (2048 / 1024 ^ k) ++ unitName k ∧
      (k < 4 → (2048:ℚ) / 1024 ^ k < 1024) ∧
      (∀ j : ℕ, j < k → 1024 ≤ (2048:ℚ) / 1024 ^ j) ∧
      (k = 4 ↔ (1024:ℚ) ^ 4 ≤ 2048) :=
  ⟨by norm_num, c3_format_bytes_unit 2048 (by norm_num)⟩

/-- C4 counterexample: for the instant 1700000000 and a local timezone one
hour east of UTC, the numeric epoch renders as local time 23:13:20 while its
ISO-8601 UTC string equivalent renders as the string's own wall clock
22:13:20 — the two renderings of the same instant differ
(`datetime.fromtimestamp` is local, `fromisoformat("...+00:00")` is aware). -/
theorem c4_counterexample :
    renderCreatedRow (.epochInt 1700000000) 3600 = "2023-11-14 23:13:20" ∧
    renderCreatedRow (isoUtcEquiv 1700000000) 3600 = "2023-11-14 22:13:20" ∧
    renderCreatedRow (.epochInt 1700000000) 3600
      ≠ renderCreatedRow (isoUtcEquiv 1700000000) 3600 :=
  ⟨by decide, by decide, by decide⟩

/-- C4 amended: supplying the creation time as a numeric epoch versus its
ISO-8601 UTC string equivalent renders the "Created" row identically exactly
when the local timezone offset used by `datetime.fromtimestamp` is 0 (UTC);
with a non-zero local offset the numeric form renders the local wall clock
and the ISO form renders the string's own wall clock, so they differ by the
offset. Both representations are accepted without failing. -/
theorem c4_amended_utc_agree (e : ℤ) :
    renderCreatedRow (.epochInt e) 0 = renderCreatedRow (isoUtcEquiv e) 0 := by
  simp [renderCreatedRow, isoUtcEquiv]

/-- C8 counterexample: attributes with no `NetworkSettings` and no
`HostConfig` key: the missing IP is rendered as "N/A", but the bare indexing
`info["HostConfig"]["PortBindings"]` raises `KeyError`, aborting the rest of
the detail display instead of rendering a placeholder. -/
theorem c8_counterexample :
    showContainerInfoNet attrsNoNet = ("N/A", .error "KeyError") := rfl

/-- C8 amended: for every container metadata structure in which the
`HostConfig`/`PortBindings` chain is present, missing IP and network fields
are rendered as the "N/A" placeholder and the detail display does not fail;
an empty (falsy) port-binding mapping omits the port table rather than
rendering a placeholder; a metadata structure missing the
`HostConfig`/`PortBindings` key itself raises `KeyError` and aborts the
remainder of the detail display. -/
theorem c8_amended_tolerant (attrs : ContainerAttrs) (hc : HostConfig)
    (pbs : List (String × List String))
    (h1 : attrs.hostConfig = some hc) (h2 : hc.portBindings = some pbs) :
    (showContainerInfoNet attrs).2
        = .ok (if pbs.isEmpty then none else some (portTableRows pbs)) ∧
    (attrs.netSettings = none → (showContainerInfoNet attrs).1 = "N/A") := by
  constructor
  · simp [showContainerInfoNet, h1, h2]
  · intro hn
    simp [showContainerInfoNet, ipAddressRow, hn, NetSettings.empty]

/-- C8 witness: attributes with no network settings and one port binding. -/
theorem c8_witness :
    attrsW.hostConfig = some hostConfigW ∧
    hostConfigW.portBindings = some [("80/tcp", ["8080"])] ∧
    ((showContainerInfoNet attrsW).2
        = .ok (if ([("80/tcp", ["8080"])] : List (String × List String)).isEmpty
               then none else some (portTableRows [("80/tcp", ["8080"])])) ∧
     (attrsW.netSettings = none → (showContainerInfoNet attrsW).1 = "N/A")) :=
  ⟨rfl, rfl, c8_amended_tolerant attrsW hostConfigW _ rfl rfl⟩
